import Mathlib

/-!
Verification development for the ScholarSync resilient structured-generation
client (`services/geminiService.ts`, function `analyzeArticles`).

The client is embedded shallowly:

* JavaScript strings are Lean `String`s (lists of characters); the JS
  `String.prototype.includes`, `split` and first-occurrence `replace` are
  re-implemented below over `List Char`.
* The upstream generation service, the `response.text` accessor and the JS
  builtin `JSON.parse` together form the environment of one service call; each
  outcome of each call is an element of `CallOutcome` (a transport error object, a
  missing/empty body, a body whose parse throws a SyntaxError carrying some
  message, or a successfully parsed JSON value).
* The error objects inspected by the retry classifier are records of the three
  fields the source reads: `message`, `status`, `code`.
* `await wait(ms)` is recorded in a trace of performed delays rather than
  executed; the returned `RunResult` carries the final outcome, the number of
  service calls made, the list of waits performed (in order), and the request
  parts that were sent.
-/

namespace ScholarSync

/-! ## JSON values

Model of the values produced by the JS builtin `JSON.parse` (numbers
restricted to integers, which covers every numeric field of the declared
response schema). -/

inductive Json where
  | null : Json
  | bool (b : Bool) : Json
  | num (n : Int) : Json
  | str (s : String) : Json
  | arr (items : List Json) : Json
  | obj (fields : List (String × Json)) : Json

/-! ## JavaScript string primitives -/

/-- JS `haystack.includes(needle)`. -/
def strIncludes (hay needle : String) : Bool :=
  hay.toList.tails.any fun t => needle.toList.isPrefixOf t

/-- JS optional chaining `message?.includes(needle)` on a possibly-undefined
string (an undefined message yields a falsy result). -/
def optIncludes (m : Option String) (needle : String) : Bool :=
  match m with
  | some s => strIncludes s needle
  | none => false

/-- Worker for `jsSplit`: returns the segment before the first separator and
the list of remaining segments. -/
def jsSplitP (sep : Char) : List Char → List Char × List (List Char)
  | [] => ([], [])
  | c :: rest =>
    let r := jsSplitP sep rest
    if c = sep then ([], r.1 :: r.2) else (c :: r.1, r.2)

/-- JS `s.split(sep)` for a single-character separator: the list of segments
between occurrences of `sep` (always non-empty). -/
def jsSplit (sep : Char) (l : List Char) : List (List Char) :=
  (jsSplitP sep l).1 :: (jsSplitP sep l).2

/-- The backquote character, referenced by the JS replacement-pattern
rules. -/
def backquoteChar : Char := Char.ofNat 96

/-- The single-quote character, referenced by the JS replacement-pattern
rules. -/
def singleQuoteChar : Char := Char.ofNat 39

/-- ECMA-262 GetSubstitution restricted to a plain-string search (no capture
groups, so a dollar followed by a digit or by an angle bracket is literal):
scanning the replacement string, a doubled dollar yields one dollar sign, a
dollar followed by an ampersand yields the matched text, a dollar followed by
the backquote character yields the portion of the searched string before the
match, a dollar followed by the single-quote character yields the portion
after the match, and every other character — including a dollar followed by
anything else — is copied literally. -/
def getSubstitution (matched before after : List Char) : List Char → List Char
  | [] => []
  | c :: rest =>
    if c = '$' then
      match rest with
      | [] => ['$']
      | d :: rest2 =>
        if d = '$' then '$' :: getSubstitution matched before after rest2
        else if d = '&' then matched ++ getSubstitution matched before after rest2
        else if d = backquoteChar then before ++ getSubstitution matched before after rest2
        else if d = singleQuoteChar then after ++ getSubstitution matched before after rest2
        else '$' :: d :: getSubstitution matched before after rest2
    else c :: getSubstitution matched before after rest

/-- JS first-occurrence `String.prototype.replace` with a plain-string
pattern and a plain-string replacement (faithful for a non-empty pattern;
the placeholder used below is non-empty): find the first occurrence of
`pat`, emit the prefix, then the GetSubstitution-processed replacement, then
the rest; return the input unchanged when `pat` does not occur. `seen`
accumulates the reversed prefix already scanned. -/
def replaceFirstAux (pat sub seen : List Char) : List Char → List Char
  | [] => seen.reverse
  | c :: rest =>
    if pat.isPrefixOf (c :: rest) then
      seen.reverse ++
        getSubstitution pat seen.reverse ((c :: rest).drop pat.length) sub ++
        (c :: rest).drop pat.length
    else replaceFirstAux pat sub (c :: seen) rest

/-- Modelled from the spec: literal first-occurrence substitution of the
placeholder by the caller-supplied topic text, with no processing of the
replacement string (the spec reads: the template is rendered by
substituting the literal placeholder for the research topic with the
caller-supplied topic text). -/
def literalSubstitute (pat sub : List Char) : List Char → List Char
  | [] => []
  | c :: rest =>
    if pat.isPrefixOf (c :: rest) then sub ++ (c :: rest).drop pat.length
    else c :: literalSubstitute pat sub rest

/-! ## Error objects and transient-failure classification -/

/-- The three fields of a thrown error object that `analyzeArticles` inspects:
`error.message` (possibly undefined), `error.status`, `error.code`. -/
structure ErrObj where
  message : Option String
  status : Option Int
  code : Option Int
deriving DecidableEq

/-- `error.message?.includes("429") || error.status === 429 || error.code === 429` (the source uses single-quoted needles). -/
def isQuotaError (e : ErrObj) : Bool :=
  optIncludes e.message "429" || e.status == some 429 || e.code == some 429

/-- `error.message?.includes("503") || error.status === 503`. -/
def isServerOverload (e : ErrObj) : Bool :=
  optIncludes e.message "503" || e.status == some 503

/-! ## Request construction -/

/-- A caller-supplied file: the declared MIME type of the `File` object
(`fileInput.file.type`) and the string `fileInput.base64` handed over by the
caller (in the application, a full data URL produced by
`FileReader.readAsDataURL`). -/
structure FileInput where
  fileType : String
  base64 : String
deriving DecidableEq

/-- One part of the request: the instruction text, or an `inlineData` object
with a MIME type and a possibly-undefined `data` field. -/
inductive Part where
  | text (s : String) : Part
  | inlineData (mimeType : String) (data : Option String) : Part
deriving DecidableEq

/-- `fileInput.base64.split(',')[1]`: the segment of the base64 string between
the first and second comma, or undefined when the string has no comma. -/
def base64Data (b : String) : Option String :=
  ((jsSplit ',' b.toList).get? 1).map fun l => String.mk l

/-- The `PROMPT_TEMPLATE` constant of the source, verbatim. -/
def PROMPT_TEMPLATE : String :=
  "\nYou are an Academic Research Assistant specialized in Systematic Literature Reviews. \nYour goal is to analyze the provided batch of research articles (PDFs) and evaluate their relevance to the specific Research Topic provided below.\n\nResearch Topic: \"{RESEARCH_TOPIC}\"\n\nFollow these stages rigorously:\n\nSTAGE 1: DEEP INDIVIDUAL ANALYSIS\nFor each article, analyze:\n- Identification (Title, Authors, Year)\n- Relevance Rating (0-100) based on alignment with the topic.\n- Rating Justification (Brief explanation).\n- Methodological Summary.\n- Key Contributions.\n- Thesis Integration advice.\n\nSTAGE 2: SUMMARY OVERVIEW TABLE\nProvide data for a concise table: Article Name, Rating, Core Conclusion, Utility (Low/Medium/High).\n\nSTAGE 3: SYNTHESIS MATRIX\nCompare articles across:\n- Common themes/frameworks.\n- Divergent results/conflicting viewpoints.\n- Research gaps.\n\nGUIDELINES:\n- Objective, academic tone.\n- If rating < 30, provide a brief summary.\n- If rating > 85, highlight specific strong points.\n\nReturn the result in the specified JSON structure.\n"

/-- `PROMPT_TEMPLATE.replace("{RESEARCH_TOPIC}", topic)`: the JS builtin
processes replacement patterns inside the topic string. -/
def renderPrompt (topic : String) : String :=
  String.mk
    (replaceFirstAux "{RESEARCH_TOPIC}".toList topic.toList [] PROMPT_TEMPLATE.toList)

/-- Modelled from the spec: the rendered instruction text as the spec words
it — the template with the placeholder literally substituted by the topic
text. -/
def specRenderPrompt (topic : String) : String :=
  String.mk
    (literalSubstitute "{RESEARCH_TOPIC}".toList topic.toList PROMPT_TEMPLATE.toList)

/-- The request-part construction loop: start from the rendered instruction
part, then push one `inlineData` part per file, in input order. -/
def buildParts (topic : String) (files : List FileInput) : List Part :=
  files.foldl
    (fun ps f => ps ++ [Part.inlineData f.fileType (base64Data f.base64)])
    [Part.text (renderPrompt topic)]

/-! ## The retry loop -/

/-- Behaviour of the environment at one service call, observed at the
`JSON.parse` boundary: `generateContent` rejects with an error object, or
resolves with a falsy `response.text`, or with a text whose `JSON.parse`
throws a SyntaxError carrying the given message, or with a text that parses
to the given JSON value. -/
inductive CallOutcome where
  | err (e : ErrObj) : CallOutcome
  | noText : CallOutcome
  | badJson (msg : String) : CallOutcome
  | json (v : Json) : CallOutcome

/-- The body of the `try` block (lines 125–141 of the source): a transport
error propagates; a falsy `response.text` throws
`Error("No response generated")`; a failed `JSON.parse` throws a SyntaxError
(no `status`/`code` fields); a parsed value is returned as-is — the
`as AnalysisResponse` cast performs no runtime validation. -/
def tryBody : CallOutcome → Except ErrObj Json
  | .err e => .error e
  | .noText => .error ⟨some "No response generated", none, none⟩
  | .badJson msg => .error ⟨some msg, none, none⟩
  | .json v => .ok v

/-- `const maxRetries = 3`. -/
def maxRetries : Nat := 3

/-- The backoff delay computed after the attempt counter has been incremented
to `attempt`: `2000 * Math.pow(2, attempt - 1)`. -/
def delayFor (attempt : Nat) : Nat := 2000 * 2 ^ (attempt - 1)

/-- The `while (true)` retry loop. `outs n` is the outcome the environment gives
the `n`-th service call (0-based); `attempt` is the attempt counter of the source,
`calls` the number of calls already made, `waits` the delays already
performed. Terminates because a retry requires `attempt < maxRetries` and
increments `attempt`. -/
def analyzeLoop (outs : Nat → CallOutcome) (attempt calls : Nat)
    (waits : List Nat) : Except ErrObj Json × Nat × List Nat :=
  match tryBody (outs calls) with
  | .ok v => (.ok v, calls + 1, waits)
  | .error e =>
    if h : (isQuotaError e || isServerOverload e) = true ∧ attempt < maxRetries then
      analyzeLoop outs (attempt + 1) (calls + 1) (waits ++ [delayFor (attempt + 1)])
    else
      (.error e, calls + 1, waits)
termination_by maxRetries - attempt
decreasing_by omega

/-- `if (!apiKey)`: absent or empty-string credential is falsy. -/
def keyMissing : Option String → Bool
  | none => true
  | some s => s.isEmpty

/-- Observable result of one `analyzeArticles` invocation: the value returned
or error thrown, the number of service calls made, the waits performed, and
the request parts sent to the service. -/
structure RunResult where
  result : Except ErrObj Json
  calls : Nat
  waits : List Nat
  sent : List Part

/-- `analyzeArticles(topic, files)` with the credential environment and the
service environment made explicit: check the API key, build the request
parts, then run the retry loop from attempt 0. -/
def analyzeArticles (apiKey : Option String) (topic : String)
    (files : List FileInput) (outs : Nat → CallOutcome) : RunResult :=
  if keyMissing apiKey then
    ⟨.error ⟨some "API Key is missing in environment variables", none, none⟩, 0, [], []⟩
  else
    let parts := buildParts topic files
    let r := analyzeLoop outs 0 0 []
    ⟨r.1, r.2.1, r.2.2, parts⟩

/-! ## The declared response schema

Executable checker translated from the `responseSchema` constant of the
source (an object with three required top-level keys, the listed item
fields marked required; `utility` restricted to the enum Low/Medium/High).
The client never runs such a check — the checker exists to state what
"matches the declared shape" means in the theorems below. -/

/-- Lookup of a key in the field list of a JSON object (first occurrence). -/
def jsonField (fields : List (String × Json)) (key : String) : Option Json :=
  match fields with
  | [] => none
  | (k, v) :: rest => if k = key then some v else jsonField rest key

/-- The named field is present with `Type.STRING`. -/
def strFieldOk (fields : List (String × Json)) (key : String) : Bool :=
  match jsonField fields key with
  | some (.str _) => true
  | _ => false

/-- The named field is present with `Type.NUMBER`. -/
def numFieldOk (fields : List (String × Json)) (key : String) : Bool :=
  match jsonField fields key with
  | some (.num _) => true
  | _ => false

/-- The `utility` field of a `summaryTable` item: present, a string, and one of
the enum values `Low`, `Medium`, `High`. -/
def utilityFieldOk (fields : List (String × Json)) : Bool :=
  match jsonField fields "utility" with
  | some (.str s) => s = "Low" || s = "Medium" || s = "High"
  | _ => false

/-- Item shape of the `individualAnalyses` array: all eight listed fields
required. -/
def individualAnalysisOk : Json → Bool
  | .obj f =>
    strFieldOk f "title" && strFieldOk f "authors" && strFieldOk f "year" &&
    numFieldOk f "relevanceRating" && strFieldOk f "ratingJustification" &&
    strFieldOk f "methodologicalSummary" && strFieldOk f "keyContributions" &&
    strFieldOk f "thesisIntegration"
  | _ => false

/-- Item shape of the `summaryTable` array: `article`, `rating`,
`coreConclusion`, `utility` all required. -/
def summaryRowOk : Json → Bool
  | .obj f =>
    strFieldOk f "article" && numFieldOk f "rating" &&
    strFieldOk f "coreConclusion" && utilityFieldOk f
  | _ => false

/-- An array whose items are all `Type.STRING`. -/
def strArrayOk : Json → Bool
  | .arr items => items.all fun v => match v with | .str _ => true | _ => false
  | _ => false

/-- Shape of `synthesisMatrix`: three required arrays of strings. -/
def synthesisMatrixOk : Json → Bool
  | .obj f =>
    (match jsonField f "commonThemes" with | some v => strArrayOk v | none => false) &&
    (match jsonField f "divergentResults" with | some v => strArrayOk v | none => false) &&
    (match jsonField f "researchGaps" with | some v => strArrayOk v | none => false)
  | _ => false

/-- Top level of the declared response schema: the three required keys with
their item shapes. -/
def responseSchemaOk : Json → Bool
  | .obj f =>
    (match jsonField f "individualAnalyses" with
     | some (.arr items) => items.all individualAnalysisOk
     | _ => false) &&
    (match jsonField f "summaryTable" with
     | some (.arr items) => items.all summaryRowOk
     | _ => false) &&
    (match jsonField f "synthesisMatrix" with
     | some v => synthesisMatrixOk v
     | _ => false)
  | _ => false

/-! ## Concrete sample values -/

/-- A well-formed `individualAnalyses` item. -/
def sampleAnalysis : Json := .obj
  [("title", .str "T"), ("authors", .str "A"), ("year", .str "2024"),
   ("relevanceRating", .num 50), ("ratingJustification", .str "J"),
   ("methodologicalSummary", .str "M"), ("keyContributions", .str "K"),
   ("thesisIntegration", .str "I")]

/-- A well-formed `summaryTable` row. -/
def sampleRow : Json := .obj
  [("article", .str "T"), ("rating", .num 50),
   ("coreConclusion", .str "C"), ("utility", .str "High")]

/-- A `summaryTable` row omitting the required `utility` field. -/
def badRow : Json := .obj
  [("article", .str "T"), ("rating", .num 50), ("coreConclusion", .str "C")]

/-- A well-formed `synthesisMatrix`. -/
def sampleMatrix : Json := .obj
  [("commonThemes", .arr [.str "X"]), ("divergentResults", .arr []),
   ("researchGaps", .arr [])]

/-- A response matching the declared schema. -/
def sampleResponse : Json := .obj
  [("individualAnalyses", .arr [sampleAnalysis]),
   ("summaryTable", .arr [sampleRow]),
   ("synthesisMatrix", sampleMatrix)]

/-- A response that parses as JSON but whose `summaryTable` item omits
`utility`. -/
def badResponse : Json := .obj
  [("individualAnalyses", .arr [sampleAnalysis]),
   ("summaryTable", .arr [badRow]),
   ("synthesisMatrix", sampleMatrix)]

/-- An error object whose only failure signature is `code === 429`. -/
def err429code : ErrObj := ⟨none, none, some 429⟩

/-- An error object whose only failure signature is `code === 503`. -/
def err503code : ErrObj := ⟨none, none, some 503⟩

/-- An error object with `status === 503`. -/
def err503status : ErrObj := ⟨none, some 503, none⟩

/-- An authentication-style error: signature matches neither transient
class. -/
def errAuth : ErrObj := ⟨some "Invalid authentication credentials", some 401, none⟩

/-- A caller-supplied data URL. -/
def sampleDataUrl : String := "data:application/pdf;base64,QUJD"

/-- A realistic SyntaxError message of the JSON parser whose position number
contains the substring checked by the quota classifier. -/
def syntaxErr429 : String := "Unexpected token o in JSON at position 429"

/-! ## Lemmas on the string primitives and request construction -/

theorem jsSplitP_no_sep (sep : Char) (l : List Char) (h : ∀ c ∈ l, c ≠ sep) :
    jsSplitP sep l = (l, []) := by
  induction l with
  | nil => rfl
  | cons c rest ih =>
    have hc : c ≠ sep := h c (by simp)
    simp [jsSplitP, hc, ih fun x hx => h x (by simp [hx])]

theorem jsSplitP_append (sep : Char) (pre post : List Char)
    (h : ∀ c ∈ pre, c ≠ sep) :
    jsSplitP sep (pre ++ sep :: post) =
      (pre, (jsSplitP sep post).1 :: (jsSplitP sep post).2) := by
  induction pre with
  | nil => simp [jsSplitP]
  | cons c rest ih =>
    have hc : c ≠ sep := h c (by simp)
    simp [jsSplitP, hc, ih fun x hx => h x (by simp [hx])]

theorem getSubstitution_no_dollar (matched before after sub : List Char)
    (h : ∀ c ∈ sub, c ≠ '$') :
    getSubstitution matched before after sub = sub := by
  induction sub with
  | nil => rfl
  | cons c rest ih =>
    have hc : c ≠ '$' := h c (by simp)
    have ih2 := ih fun x hx => h x (by simp [hx])
    cases rest with
    | nil => simp [getSubstitution, hc]
    | cons d rest2 => simp [getSubstitution, hc, ih2]

theorem replaceFirstAux_no_dollar (pat sub : List Char)
    (h : ∀ c ∈ sub, c ≠ '$') (seen l : List Char) :
    replaceFirstAux pat sub seen l =
      seen.reverse ++ literalSubstitute pat sub l := by
  induction l generalizing seen with
  | nil =>
    simp only [replaceFirstAux, literalSubstitute]
    simp
  | cons c rest ih =>
    by_cases hp : pat.isPrefixOf (c :: rest)
    · simp only [replaceFirstAux, literalSubstitute, hp, if_true]
      simp [getSubstitution_no_dollar pat seen.reverse _ sub h]
    · simp only [replaceFirstAux, literalSubstitute, hp, if_false]
      simp [ih]

theorem renderPrompt_no_dollar (topic : String)
    (h : ∀ c ∈ topic.toList, c ≠ '$') :
    renderPrompt topic = specRenderPrompt topic := by
  unfold renderPrompt specRenderPrompt
  rw [replaceFirstAux_no_dollar _ _ h]
  rfl

theorem base64Data_after_comma (pre post : List Char)
    (hpre : ∀ c ∈ pre, c ≠ ',') (hpost : ∀ c ∈ post, c ≠ ',') :
    base64Data (String.mk (pre ++ ',' :: post)) = some (String.mk post) := by
  have ht : (String.mk (pre ++ ',' :: post)).toList = pre ++ ',' :: post := rfl
  unfold base64Data jsSplit
  rw [ht, jsSplitP_append ',' pre post hpre, jsSplitP_no_sep ',' post hpost]
  rfl

theorem base64Data_no_comma (b : String) (h : ∀ c ∈ b.toList, c ≠ ',') :
    base64Data b = none := by
  unfold base64Data jsSplit
  rw [jsSplitP_no_sep ',' b.toList h]
  rfl

theorem foldl_push {α β : Type} (g : α → β) (xs : List α) (init : List β) :
    xs.foldl (fun ps x => ps ++ [g x]) init = init ++ xs.map g := by
  induction xs generalizing init with
  | nil => simp
  | cons x rest ih => simp [ih]

theorem buildParts_eq (topic : String) (files : List FileInput) :
    buildParts topic files =
      Part.text (renderPrompt topic) ::
        files.map fun f => Part.inlineData f.fileType (base64Data f.base64) := by
  simp [buildParts, foldl_push]

/-! ## Step lemmas for the retry loop -/

theorem analyzeLoop_ok (outs : Nat → CallOutcome) (attempt calls : Nat)
    (waits : List Nat) (v : Json) (h : tryBody (outs calls) = .ok v) :
    analyzeLoop outs attempt calls waits = (.ok v, calls + 1, waits) := by
  rw [analyzeLoop, h]

theorem analyzeLoop_retry (outs : Nat → CallOutcome) (attempt calls : Nat)
    (waits : List Nat) (e : ErrObj) (h : tryBody (outs calls) = .error e)
    (he : (isQuotaError e || isServerOverload e) = true)
    (ha : attempt < maxRetries) :
    analyzeLoop outs attempt calls waits =
      analyzeLoop outs (attempt + 1) (calls + 1) (waits ++ [delayFor (attempt + 1)]) := by
  rw [analyzeLoop, h]
  simp [he, ha]

theorem analyzeLoop_stop (outs : Nat → CallOutcome) (attempt calls : Nat)
    (waits : List Nat) (e : ErrObj) (h : tryBody (outs calls) = .error e)
    (he : ¬((isQuotaError e || isServerOverload e) = true ∧ attempt < maxRetries)) :
    analyzeLoop outs attempt calls waits = (.error e, calls + 1, waits) := by
  rw [analyzeLoop, h]
  simp only [dif_neg he]

theorem analyzeArticles_run (apiKey : Option String) (topic : String)
    (files : List FileInput) (outs : Nat → CallOutcome)
    (hk : keyMissing apiKey = false) :
    analyzeArticles apiKey topic files outs =
      ⟨(analyzeLoop outs 0 0 []).1, (analyzeLoop outs 0 0 []).2.1,
       (analyzeLoop outs 0 0 []).2.2, buildParts topic files⟩ := by
  simp [analyzeArticles, hk]

theorem analyzeArticles_eq (apiKey : Option String) (topic : String)
    (files : List FileInput) (outs : Nat → CallOutcome)
    (r : Except ErrObj Json) (c : Nat) (w : List Nat)
    (hk : keyMissing apiKey = false) (hl : analyzeLoop outs 0 0 [] = (r, c, w)) :
    analyzeArticles apiKey topic files outs = ⟨r, c, w, buildParts topic files⟩ := by
  simp [analyzeArticles, hk, hl]

/-! ## Claims -/

/-- C5: for all topics and document sets, if the service returns a non-empty
well-formed payload on the first attempt, `analyzeArticles` makes exactly one
service call, performs no wait, and returns that payload unchanged (the very
JSON value the body parsed to — no coercion or truncation). -/
theorem c5_first_attempt_success (apiKey : Option String) (topic : String)
    (files : List FileInput) (outs : Nat → CallOutcome) (v : Json)
    (hk : keyMissing apiKey = false) (h0 : outs 0 = .json v)
    (_hv : responseSchemaOk v = true) :
    analyzeArticles apiKey topic files outs =
      ⟨.ok v, 1, [], buildParts topic files⟩ :=
  analyzeArticles_eq apiKey topic files outs (.ok v) 1 [] hk
    (analyzeLoop_ok outs 0 0 [] v (by rw [h0]; rfl))

/-- Witness for C5 at a concrete well-formed response. -/
theorem c5_witness :
    analyzeArticles (some "k") "t" [] (fun _ => .json sampleResponse) =
      ⟨.ok sampleResponse, 1, [], buildParts "t" []⟩ :=
  c5_first_attempt_success (some "k") "t" [] (fun _ => .json sampleResponse)
    sampleResponse (by decide) rfl (by decide)

/-- C6: when the required service credential is absent (or empty, which the
falsy check of the source also catches), `analyzeArticles` raises the
configuration error immediately: zero service calls, zero waits, no request
built, for every topic, document list and service behaviour. -/
theorem c6_missing_key (apiKey : Option String) (topic : String)
    (files : List FileInput) (outs : Nat → CallOutcome)
    (hk : keyMissing apiKey = true) :
    analyzeArticles apiKey topic files outs =
      ⟨.error ⟨some "API Key is missing in environment variables", none, none⟩,
       0, [], []⟩ := by
  simp [analyzeArticles, hk]

/-- Witness for C6 with the credential absent. -/
theorem c6_witness :
    analyzeArticles none "t" [] (fun _ => .json sampleResponse) =
      ⟨.error ⟨some "API Key is missing in environment variables", none, none⟩,
       0, [], []⟩ :=
  c6_missing_key none "t" [] (fun _ => .json sampleResponse) rfl

/-- C1 counterexample: a response that parses as JSON but whose
`summaryTable` item omits the required `utility` field is NOT rejected:
`analyzeArticles` returns the schema-violating payload as its result after a
single call, raising nothing — the claim that it raises a
SchemaViolationError fails on this input. -/
theorem c1_schema_violation_returned_cex :
    responseSchemaOk badResponse = false ∧
    (analyzeArticles (some "k") "t" [] (fun _ => .json badResponse)).result =
      .ok badResponse ∧
    (analyzeArticles (some "k") "t" [] (fun _ => .json badResponse)).calls = 1 ∧
    (analyzeArticles (some "k") "t" [] (fun _ => .json badResponse)).waits = [] := by
  have h : analyzeArticles (some "k") "t" [] (fun _ => .json badResponse) =
      ⟨.ok badResponse, 1, [], buildParts "t" []⟩ :=
    analyzeArticles_eq (some "k") "t" [] _ (.ok badResponse) 1 [] (by decide)
      (analyzeLoop_ok _ 0 0 [] badResponse rfl)
  exact ⟨by decide, by rw [h], by rw [h], by rw [h]⟩

/-- C1 amended: `analyzeArticles` performs no client-side validation of the
parsed payload — schema enforcement is delegated to the service via the
attached response contract. A response body that parses as JSON is returned
as the result even when it violates the declared schema (e.g. a
`summaryTable` item omitting `utility`), after exactly one call and with no
retry and no wait. -/
theorem c1_amended_no_validation (apiKey : Option String) (topic : String)
    (files : List FileInput) (outs : Nat → CallOutcome) (v : Json)
    (hk : keyMissing apiKey = false) (_hv : responseSchemaOk v = false)
    (h0 : outs 0 = .json v) :
    analyzeArticles apiKey topic files outs =
      ⟨.ok v, 1, [], buildParts topic files⟩ :=
  analyzeArticles_eq apiKey topic files outs (.ok v) 1 [] hk
    (analyzeLoop_ok outs 0 0 [] v (by rw [h0]; rfl))

/-- Witness for the amended C1 at the concrete utility-less response. -/
theorem c1_amended_witness :
    analyzeArticles (some "k") "t" [] (fun _ => .json badResponse) =
      ⟨.ok badResponse, 1, [], buildParts "t" []⟩ :=
  c1_amended_no_validation (some "k") "t" [] (fun _ => .json badResponse)
    badResponse (by decide) (by decide) rfl

/-- C2: a retry happens exactly when the failure signature matches the quota
class (429) or the overload class (503) and the attempt counter is below 3,
with a wait of 2000·2^(attempt-1) ms before each retry; in particular,
transient-class failures on attempts 1 and 2 and a payload on attempt 3
yield exactly 3 calls, waits of 2000 then 4000 ms, and the successful
payload. -/
theorem c2_retry_on_transient :
    (∀ (apiKey : Option String) (topic : String) (files : List FileInput)
        (outs : Nat → CallOutcome) (e : ErrObj) (v : Json),
      keyMissing apiKey = false → outs 0 = .err e → outs 1 = .json v →
      analyzeArticles apiKey topic files outs =
        if (isQuotaError e || isServerOverload e) = true then
          ⟨.ok v, 2, [2000], buildParts topic files⟩
        else ⟨.error e, 1, [], buildParts topic files⟩) ∧
    (∀ (apiKey : Option String) (topic : String) (files : List FileInput)
        (outs : Nat → CallOutcome) (e1 e2 : ErrObj) (v : Json),
      keyMissing apiKey = false →
      (isQuotaError e1 || isServerOverload e1) = true →
      (isQuotaError e2 || isServerOverload e2) = true →
      outs 0 = .err e1 → outs 1 = .err e2 → outs 2 = .json v →
      analyzeArticles apiKey topic files outs =
        ⟨.ok v, 3, [2000, 4000], buildParts topic files⟩) := by
  constructor
  · intro apiKey topic files outs e v hk h0 h1
    by_cases hc : (isQuotaError e || isServerOverload e) = true
    · rw [if_pos hc]
      refine analyzeArticles_eq apiKey topic files outs _ _ _ hk ?_
      rw [analyzeLoop_retry outs 0 0 [] e (by rw [h0]; rfl) hc (by decide),
        analyzeLoop_ok outs 1 1 _ v (by rw [h1]; rfl)]
      norm_num [delayFor]
    · rw [if_neg hc]
      refine analyzeArticles_eq apiKey topic files outs _ _ _ hk ?_
      exact analyzeLoop_stop outs 0 0 [] e (by rw [h0]; rfl)
        fun hcon => hc hcon.1
  · intro apiKey topic files outs e1 e2 v hk ht1 ht2 h0 h1 h2
    refine analyzeArticles_eq apiKey topic files outs _ _ _ hk ?_
    rw [analyzeLoop_retry outs 0 0 [] e1 (by rw [h0]; rfl) ht1 (by decide),
      analyzeLoop_retry outs 1 1 _ e2 (by rw [h1]; rfl) ht2 (by decide),
      analyzeLoop_ok outs 2 2 _ v (by rw [h2]; rfl)]
    norm_num [delayFor]

/-- Witness for C2: 429-class failures (code field) on the first two calls,
then a well-formed payload. -/
theorem c2_witness :
    analyzeArticles (some "k") "t" []
        (fun n => if n < 2 then .err err429code else .json sampleResponse) =
      ⟨.ok sampleResponse, 3, [2000, 4000], buildParts "t" []⟩ :=
  c2_retry_on_transient.2 (some "k") "t" [] _ err429code err429code
    sampleResponse (by decide) (by decide) (by decide) rfl rfl rfl

/-- C3: transient-class failures on all 4 attempts give exactly 4 calls,
waits of 2000/4000/8000 ms between them, the 4th error re-raised with no 5th
attempt, and a total added wait of at most 14 seconds. -/
theorem c3_bounded_attempts (apiKey : Option String) (topic : String)
    (files : List FileInput) (outs : Nat → CallOutcome) (e1 e2 e3 e4 : ErrObj)
    (hk : keyMissing apiKey = false)
    (ht1 : (isQuotaError e1 || isServerOverload e1) = true)
    (ht2 : (isQuotaError e2 || isServerOverload e2) = true)
    (ht3 : (isQuotaError e3 || isServerOverload e3) = true)
    (_ht4 : (isQuotaError e4 || isServerOverload e4) = true)
    (h0 : outs 0 = .err e1) (h1 : outs 1 = .err e2)
    (h2 : outs 2 = .err e3) (h3 : outs 3 = .err e4) :
    analyzeArticles apiKey topic files outs =
      ⟨.error e4, 4, [2000, 4000, 8000], buildParts topic files⟩ ∧
    (analyzeArticles apiKey topic files outs).waits.sum ≤ 14000 := by
  have h : analyzeArticles apiKey topic files outs =
      ⟨.error e4, 4, [2000, 4000, 8000], buildParts topic files⟩ := by
    refine analyzeArticles_eq apiKey topic files outs _ _ _ hk ?_
    rw [analyzeLoop_retry outs 0 0 [] e1 (by rw [h0]; rfl) ht1 (by decide),
      analyzeLoop_retry outs 1 1 _ e2 (by rw [h1]; rfl) ht2 (by decide),
      analyzeLoop_retry outs 2 2 _ e3 (by rw [h2]; rfl) ht3 (by decide),
      analyzeLoop_stop outs 3 3 _ e4 (by rw [h3]; rfl)
        fun hcon => absurd hcon.2 (by decide)]
    norm_num [delayFor]
  refine ⟨h, ?_⟩
  rw [h]
  show ([2000, 4000, 8000] : List Nat).sum ≤ 14000
  decide

/-- Witness for C3: overload-class failures (status field) on all four
calls. -/
theorem c3_witness :
    analyzeArticles (some "k") "t" [] (fun _ => .err err503status) =
      ⟨.error err503status, 4, [2000, 4000, 8000], buildParts "t" []⟩ ∧
    (analyzeArticles (some "k") "t" [] (fun _ => .err err503status)).waits.sum ≤
      14000 :=
  c3_bounded_attempts (some "k") "t" [] _ err503status err503status
    err503status err503status (by decide) (by decide) (by decide) (by decide)
    (by decide) rfl rfl rfl rfl

/-- C4 counterexample: a payload that fails to parse is NOT always raised
immediately without retry — the catch block classifies whatever was thrown
by its message, so a realistic SyntaxError whose position number contains
429 matches the quota classifier and is retried: two calls and a 2000 ms
wait, where the claim demands one call and none. -/
theorem c4_parse_error_retried_cex :
    strIncludes syntaxErr429 "429" = true ∧
    analyzeArticles (some "k") "t" []
        (fun n => if n = 0 then .badJson syntaxErr429 else .json sampleResponse) =
      ⟨.ok sampleResponse, 2, [2000], buildParts "t" []⟩ := by
  refine ⟨by decide, ?_⟩
  refine analyzeArticles_eq (some "k") "t" []
    (fun n => if n = 0 then .badJson syntaxErr429 else .json sampleResponse)
    _ _ _ (by decide) ?_
  rw [analyzeLoop_retry
      (fun n => if n = 0 then .badJson syntaxErr429 else .json sampleResponse)
      0 0 [] ⟨some syntaxErr429, none, none⟩ rfl (by decide) (by decide),
    analyzeLoop_ok
      (fun n => if n = 0 then .badJson syntaxErr429 else .json sampleResponse)
      1 1 _ sampleResponse rfl]
  norm_num [delayFor]

/-- C4 amended: a first-call failure is re-raised unchanged, immediately,
with exactly one call and no wait, precisely when its signature does not
match the two transient classifiers, which inspect the message of whatever
was thrown: this covers any transport error failing both classifiers, a
missing/empty response body (whose fixed internal error message matches
neither class), and an unparseable payload whose SyntaxError message
contains neither needle — while a parse failure whose message does contain
one of them is misclassified as transient and retried. -/
theorem c4_nontransient_immediate :
    (∀ (apiKey : Option String) (topic : String) (files : List FileInput)
        (outs : Nat → CallOutcome) (e : ErrObj),
      keyMissing apiKey = false → outs 0 = .err e →
      isQuotaError e = false → isServerOverload e = false →
      analyzeArticles apiKey topic files outs =
        ⟨.error e, 1, [], buildParts topic files⟩) ∧
    (∀ (apiKey : Option String) (topic : String) (files : List FileInput)
        (outs : Nat → CallOutcome),
      keyMissing apiKey = false → outs 0 = .noText →
      analyzeArticles apiKey topic files outs =
        ⟨.error ⟨some "No response generated", none, none⟩, 1, [],
         buildParts topic files⟩) ∧
    (∀ (apiKey : Option String) (topic : String) (files : List FileInput)
        (outs : Nat → CallOutcome) (msg : String),
      keyMissing apiKey = false → outs 0 = .badJson msg →
      strIncludes msg "429" = false → strIncludes msg "503" = false →
      analyzeArticles apiKey topic files outs =
        ⟨.error ⟨some msg, none, none⟩, 1, [], buildParts topic files⟩) := by
  refine ⟨?_, ?_, ?_⟩
  · intro apiKey topic files outs e hk h0 hq hs
    refine analyzeArticles_eq apiKey topic files outs _ _ _ hk ?_
    exact analyzeLoop_stop outs 0 0 [] e (by rw [h0]; rfl)
      fun hcon => by simp [hq, hs] at hcon
  · intro apiKey topic files outs hk h0
    refine analyzeArticles_eq apiKey topic files outs _ _ _ hk ?_
    exact analyzeLoop_stop outs 0 0 [] _ (by rw [h0]; rfl)
      fun hcon => absurd hcon.1 (by decide)
  · intro apiKey topic files outs msg hk h0 h429 h503
    refine analyzeArticles_eq apiKey topic files outs _ _ _ hk ?_
    refine analyzeLoop_stop outs 0 0 [] _ (by rw [h0]; rfl) fun hcon => ?_
    have : (isQuotaError ⟨some msg, none, none⟩ ||
        isServerOverload ⟨some msg, none, none⟩) = false := by
      simp [isQuotaError, isServerOverload, optIncludes, h429, h503]
    rw [this] at hcon
    exact absurd hcon.1 (by decide)

/-- Witness for the amended C4 at a concrete authentication-style error. -/
theorem c4_witness :
    analyzeArticles (some "k") "t" [] (fun _ => .err errAuth) =
      ⟨.error errAuth, 1, [], buildParts "t" []⟩ :=
  c4_nontransient_immediate.1 (some "k") "t" [] (fun _ => .err errAuth)
    errAuth (by decide) rfl (by decide) (by decide)

/-- C10: the transient classification is asymmetric in the `code` field: an
error whose `code` is 429 is classified quota-exhaustion (and retried
whatever its other fields), while an error whose `code` is 503 — with no
matching `status` and a message containing neither needle — matches neither
class and is re-raised immediately without retry. -/
theorem c10_code_asymmetry :
    (∀ e : ErrObj, e.code = some 429 → isQuotaError e = true) ∧
    (∀ (apiKey : Option String) (topic : String) (files : List FileInput)
        (outs : Nat → CallOutcome) (e : ErrObj) (v : Json),
      keyMissing apiKey = false → e.code = some 429 →
      outs 0 = .err e → outs 1 = .json v →
      analyzeArticles apiKey topic files outs =
        ⟨.ok v, 2, [2000], buildParts topic files⟩) ∧
    (∀ (apiKey : Option String) (topic : String) (files : List FileInput)
        (outs : Nat → CallOutcome) (e : ErrObj),
      keyMissing apiKey = false → e.code = some 503 →
      e.status ≠ some 503 → e.status ≠ some 429 →
      optIncludes e.message "503" = false →
      optIncludes e.message "429" = false →
      outs 0 = .err e →
      analyzeArticles apiKey topic files outs =
        ⟨.error e, 1, [], buildParts topic files⟩) := by
  have hquota : ∀ e : ErrObj, e.code = some 429 → isQuotaError e = true := by
    intro e hc
    simp [isQuotaError, hc]
  refine ⟨hquota, ?_, ?_⟩
  · intro apiKey topic files outs e v hk hc h0 h1
    refine analyzeArticles_eq apiKey topic files outs _ _ _ hk ?_
    rw [analyzeLoop_retry outs 0 0 [] e (by rw [h0]; rfl)
        (by rw [hquota e hc]; rfl) (by decide),
      analyzeLoop_ok outs 1 1 _ v (by rw [h1]; rfl)]
    norm_num [delayFor]
  · intro apiKey topic files outs e hk hc hs503 hs429 hm503 hm429 h0
    have hbs503 : (e.status == some 503) = false := by
      rw [beq_eq_false_iff_ne]; exact hs503
    have hbs429 : (e.status == some 429) = false := by
      rw [beq_eq_false_iff_ne]; exact hs429
    have hbc429 : (e.code == some 429) = false := by rw [hc]; rfl
    have hq : isQuotaError e = false := by
      simp [isQuotaError, hm429, hbs429, hbc429]
    have hs : isServerOverload e = false := by
      simp [isServerOverload, hm503, hbs503]
    refine analyzeArticles_eq apiKey topic files outs _ _ _ hk ?_
    exact analyzeLoop_stop outs 0 0 [] e (by rw [h0]; rfl)
      fun hcon => by simp [hq, hs] at hcon

/-- Witness for C10: a code-only 429 error is retried; a code-only 503 error
is raised at once. -/
theorem c10_witness :
    analyzeArticles (some "k") "t" []
        (fun n => if n = 0 then .err err429code else .json sampleResponse) =
      ⟨.ok sampleResponse, 2, [2000], buildParts "t" []⟩ ∧
    analyzeArticles (some "k") "t" [] (fun _ => .err err503code) =
      ⟨.error err503code, 1, [], buildParts "t" []⟩ :=
  ⟨c10_code_asymmetry.2.1 (some "k") "t" [] _ err429code sampleResponse
      (by decide) rfl rfl rfl,
    c10_code_asymmetry.2.2 (some "k") "t" [] _ err503code (by decide) rfl
      (by decide) (by decide) rfl rfl rfl⟩

set_option maxRecDepth 8192 in
/-- C7 counterexample: for the topic consisting of two dollar signs the
head part of the request is NOT the template with the placeholder
substituted by the caller-supplied topic text — the JS replacement
processing collapses the doubled dollar to a single one, so the part equals
the literal substitution of one dollar sign instead. -/
theorem c7_dollar_topic_cex :
    (buildParts "$$" []).get? 0 ≠ some (Part.text (specRenderPrompt "$$")) ∧
    (buildParts "$$" []).get? 0 = some (Part.text (specRenderPrompt "$")) := by
  constructor
  · decide
  · decide

/-- C7 amended: for every topic and ordered document list of length n, the
constructed request has exactly 1 + n parts: first the instruction template
with the placeholder replaced by the topic under JS string-replacement
semantics — which processes the GetSubstitution patterns inside the topic,
so a topic free of the dollar character is substituted literally — then one
part per document in input order, carrying the declared MIME type of that
document and its extracted content. -/
theorem c7_request_parts (topic : String) (files : List FileInput) :
    (buildParts topic files).length = 1 + files.length ∧
    (buildParts topic files).get? 0 = some (Part.text (renderPrompt topic)) ∧
    (∀ i : Nat, (buildParts topic files).get? (i + 1) =
      (files.get? i).map fun f =>
        Part.inlineData f.fileType (base64Data f.base64)) ∧
    ((∀ c ∈ topic.toList, c ≠ '$') →
      renderPrompt topic = specRenderPrompt topic) := by
  rw [buildParts_eq]
  refine ⟨by simp [Nat.add_comm], rfl, fun i => ?_,
    fun h => renderPrompt_no_dollar topic h⟩
  simp [List.get?_eq_getElem?, List.getElem?_map]

/-- Witness for the amended C7 at a concrete dollar-free topic. -/
theorem c7_witness :
    (buildParts "t" [FileInput.mk "application/pdf" "x,y"]).length = 1 + 1 ∧
    renderPrompt "t" = specRenderPrompt "t" :=
  ⟨(c7_request_parts "t" [FileInput.mk "application/pdf" "x,y"]).1,
    (c7_request_parts "t" [FileInput.mk "application/pdf" "x,y"]).2.2.2
      (by decide)⟩

/-- C8 counterexample: the content attached for a caller-supplied data URL
is NOT the caller string unchanged — the core itself removes the data-URL
prefix (everything up to and including the first comma) before attaching the
data. -/
theorem c8_prefix_stripped_cex :
    (buildParts "t" [⟨"application/pdf", sampleDataUrl⟩]).get? 1 =
      some (Part.inlineData "application/pdf" (some "QUJD")) ∧
    "QUJD" ≠ sampleDataUrl := by
  rw [buildParts_eq]
  exact ⟨rfl, by decide⟩

/-- C8 amended: the core performs the data-URL prefix removal itself — the
data attached to the request part of a document is the segment of the
caller-supplied string strictly between its first and second comma (the
whole remainder when no further comma follows), not the full caller string;
no base64 decoding is performed beyond that split. -/
theorem c8_amended_after_comma (mime topic : String) (pre post : List Char)
    (hpre : ∀ c ∈ pre, c ≠ ',') (hpost : ∀ c ∈ post, c ≠ ',') :
    (buildParts topic [⟨mime, String.mk (pre ++ ',' :: post)⟩]).get? 1 =
      some (Part.inlineData mime (some (String.mk post))) := by
  rw [buildParts_eq]
  simp [base64Data_after_comma pre post hpre hpost]

/-- Witness for the amended C8 at a concrete one-comma string. -/
theorem c8_amended_witness :
    (buildParts "t" [⟨"m", String.mk (['a'] ++ ',' :: ['b'])⟩]).get? 1 =
      some (Part.inlineData "m" (some (String.mk ['b']))) :=
  c8_amended_after_comma "m" "t" ['a'] ['b'] (by decide) (by decide)

/-- C9: for a document whose base64 string contains no comma, the request
part built for it carries an undefined/absent data field, because the core
takes `split(',')[1]`. -/
theorem c9_no_comma_undefined_data (topic : String) (f : FileInput)
    (h : ∀ c ∈ f.base64.toList, c ≠ ',') :
    base64Data f.base64 = none ∧
    (buildParts topic [f]).get? 1 =
      some (Part.inlineData f.fileType none) := by
  have hb := base64Data_no_comma f.base64 h
  refine ⟨hb, ?_⟩
  rw [buildParts_eq]
  simp [hb]

/-- Witness for C9 at a prefix-free base64 string. -/
theorem c9_witness :
    base64Data (FileInput.mk "application/pdf" "QUJD").base64 = none ∧
    (buildParts "t" [FileInput.mk "application/pdf" "QUJD"]).get? 1 =
      some (Part.inlineData "application/pdf" none) :=
  c9_no_comma_undefined_data "t" (FileInput.mk "application/pdf" "QUJD")
    (by decide)

end ScholarSync
